import Mathlib

/-!
Shallow embedding of the rspotify client core (src/client.rs): identifier
normalization (get_id, get_uri), client construction and credential
resolution (build, auth_headers), request construction in internal_call
(URL resolution, headers, method-specific payload placement), and the
response-to-error classifier (ClientError::from_response, including the
serde deserialization of ApiError).  Rust strings are modelled as lists
of characters (Str), panics as none, and the observable part of a request
or response as explicit records.
-/

namespace RSpotify

/-- Rust strings, modelled as lists of characters. -/
abbrev Str := List Char

/-- Splitting on a separator character with the semantics of Rust's
str::split: the result has one segment more than the number of separator
occurrences, and empty segments are kept. -/
def splitOnChar (c : Char) : Str → List Str
  | [] => [[]]
  | x :: xs =>
    match splitOnChar c xs with
    | [] => [[]]
    | f :: rest => if x = c then [] :: f :: rest else (x :: f) :: rest

/-- Modelled from the spec: the resource-type tag (senum::Type in the
repository, a module outside src/), used by the identifier normalizer as
a validation key: track, artist, album, playlist, show, episode, user. -/
inductive Ty
  | track
  | artist
  | album
  | playlist
  | show
  | episode
  | user
  deriving DecidableEq

/-- Modelled from the spec: the canonical string form of a resource type,
its lowercase name. -/
def Ty.as_str : Ty → Str
  | .track => "track".data
  | .artist => "artist".data
  | .album => "album".data
  | .playlist => "playlist".data
  | .show => "show".data
  | .episode => "episode".data
  | .user => "user".data

/-- One splitting attempt of Spotify::get_id (client.rs lines 2015-2028
for the colon attempt, lines 2029-2042 for the slash attempt): when the
split has at least three segments and the second-to-last equals the
expected type string, the last segment is the identifier; otherwise (too
few segments, or a type mismatch, which the source merely logs) the
attempt falls through, modelled as none. -/
def idFromSplit (ts : Str) (c : Char) (id : Str) : Option Str :=
  if 3 ≤ (splitOnChar c id).length
      ∧ (splitOnChar c id)[(splitOnChar c id).length - 2]? = some ts then
    (splitOnChar c id)[(splitOnChar c id).length - 1]?
  else
    none

/-- Spotify::get_id (client.rs lines 2013-2044): strip a colon-delimited
URI, or failing that a slash-delimited URL, down to the bare identifier,
validating the embedded type segment; when neither attempt succeeds the
input is returned unchanged. -/
def get_id (t : Ty) (id : Str) : Str :=
  match idFromSplit t.as_str ':' id with
  | some v => v
  | none =>
    match idFromSplit t.as_str '/' id with
    | some v => v
    | none => id

/-- Spotify::get_uri (client.rs lines 2005-2011): build the canonical
URI from the stripped identifier. -/
def get_uri (t : Ty) (id : Str) : Str :=
  "spotify:".data ++ t.as_str ++ ':' :: get_id t id

-- Sanity checks against the source's own test_get_id and test_get_uri.
example : get_id .artist "spotify:artist:2WX2uTcsvV5OnS0inACecP".data
    = "2WX2uTcsvV5OnS0inACecP".data := by decide
example : get_id .album "spotify/album/2WX2uTcsvV5OnS0inACecP".data
    = "2WX2uTcsvV5OnS0inACecP".data := by decide
example : get_id .artist "spotify-album-2WX2uTcsvV5OnS0inACecP".data
    = "spotify-album-2WX2uTcsvV5OnS0inACecP".data := by decide
example : get_uri .track "1301WleyT98MSxVHPZCA6M".data
    = "spotify:track:1301WleyT98MSxVHPZCA6M".data := by decide
example : get_uri .track "spotify:track:4iV5W9uYEdYUVa79Axb7Rh".data
    = "spotify:track:4iV5W9uYEdYUVa79Axb7Rh".data := by decide

/-- Modelled from the spec: the client-credentials manager (the oauth2
module, outside src/); the only capability the client consumes is a call
returning a currently valid bearer token string. -/
structure SpotifyClientCredentials where
  token : Str
  deriving DecidableEq

/-- Modelled from the spec: get_access_token returns the managed bearer
token. -/
def SpotifyClientCredentials.get_access_token (m : SpotifyClientCredentials) : Str :=
  m.token

/-- Spotify client state (client.rs lines 105-111).  The field prefixUrl
models the pub prefix field of the source (prefix is reserved in Lean);
the reqwest Client handle carries no observable state and is omitted. -/
structure Spotify where
  prefixUrl : Str
  access_token : Option Str
  client_credentials_manager : Option SpotifyClientCredentials
  deriving DecidableEq

/-- Spotify::default (client.rs lines 115-122). -/
def Spotify.mkDefault : Spotify :=
  { prefixUrl := "https://api.spotify.com/v1/".data
    access_token := none
    client_credentials_manager := none }

/-- Spotify::build (client.rs lines 143-148); the panic raised when both
token sources are absent is modelled as none, and on success the
configuration is returned unchanged. -/
def build (s : Spotify) : Option Spotify :=
  if s.access_token.isNone && s.client_credentials_manager.isNone then none
  else some s

/-- Spotify::auth_headers (client.rs lines 150-161): prefer the static
access token, fall back to the credentials manager, and panic (modelled
none) when neither is configured; the header value is Bearer followed by
the token. -/
def auth_headers (s : Spotify) : Option Str :=
  (match s.access_token with
   | some token => some token
   | none =>
     match s.client_credentials_manager with
     | some m => some m.get_access_token
     | none => none).map fun token => "Bearer ".data ++ token

/-- HTTP methods (the reqwest::Method values the client can receive). -/
inductive Method
  | GET
  | POST
  | PUT
  | DELETE
  | OPTIONS
  | HEAD
  | PATCH
  | TRACE
  deriving DecidableEq

/-- JSON values (serde_json::Value); objects keep their entries in wire
order, and the numbers relevant to the classifier are integers. -/
inductive Json
  | null
  | bool (b : Bool)
  | num (n : Int)
  | str (s : Str)
  | arr (elems : List Json)
  | obj (entries : List (Str × Json))

/-- Observable request assembled by Spotify::internal_call before it is
sent (client.rs lines 169-191): the resolved URL, the headers, and the
payload either as query parameters or as a JSON body. -/
structure HttpRequest where
  method : Method
  url : Str
  headers : List (Str × Str)
  query : Option Json
  body : Option Json

/-- Request construction of Spotify::internal_call (client.rs lines
163-191): when the url does not start with http, the source prepends the
hardcoded literal (not self.prefix); the Authorization and Content-Type
headers are attached; the payload is placed as query parameters for GET,
as a JSON body for POST, PUT and DELETE, and not at all for any other
method.  The none result models the panic inside auth_headers. -/
def internal_call_request (s : Spotify) (method : Method) (url : Str)
    (payload : Json) : Option HttpRequest :=
  (auth_headers s).map fun auth =>
    let url := if "http".data.isPrefixOf url then url
               else "https://api.spotify.com/v1/".data ++ url
    let headers := [("Authorization".data, auth),
                    ("Content-Type".data, "application/json".data)]
    match method with
    | .GET =>
      { method := method, url := url, headers := headers
        query := some payload, body := none }
    | .POST | .PUT | .DELETE =>
      { method := method, url := url, headers := headers
        query := none, body := some payload }
    | _ =>
      { method := method, url := url, headers := headers
        query := none, body := none }

/-- Matches errors returned by the API as part of the JSON response
object (client.rs lines 85-100): the regular shape with status and
message, and the player shape with an additional reason. -/
inductive ApiError
  | Regular (status : Nat) (message : Str)
  | Player (status : Nat) (message : Str) (reason : Str)
  deriving DecidableEq

/-- Deserialization of a u16 field from a JSON value (serde). -/
def parseU16 : Json → Option Nat
  | .num n => if 0 ≤ n ∧ n < 65536 then some n.toNat else none
  | _ => none

/-- Deserialization of a string field from a JSON value (serde). -/
def parseStr : Json → Option Str
  | .str s => some s
  | _ => none

/-- Field loop of the derived deserializer for the Regular variant:
status and message collected in order, duplicates rejected, unknown
fields ignored, both fields required. -/
def regularFromFields :
    List (Str × Json) → Option Nat → Option Str → Option ApiError
  | [], some status, some message => some (.Regular status message)
  | [], _, _ => none
  | (k, v) :: rest, status, message =>
    if k = "status".data then
      match status, parseU16 v with
      | none, some n => regularFromFields rest (some n) message
      | _, _ => none
    else if k = "message".data then
      match message, parseStr v with
      | none, some m => regularFromFields rest status (some m)
      | _, _ => none
    else regularFromFields rest status message

/-- Field loop of the derived deserializer for the Player variant:
status, message and reason collected in order, duplicates rejected,
unknown fields ignored, all three fields required. -/
def playerFromFields :
    List (Str × Json) → Option Nat → Option Str → Option Str → Option ApiError
  | [], some status, some message, some reason =>
    some (.Player status message reason)
  | [], _, _, _ => none
  | (k, v) :: rest, status, message, reason =>
    if k = "status".data then
      match status, parseU16 v with
      | none, some n => playerFromFields rest (some n) message reason
      | _, _ => none
    else if k = "message".data then
      match message, parseStr v with
      | none, some m => playerFromFields rest status (some m) reason
      | _, _ => none
    else if k = "reason".data then
      match reason, parseStr v with
      | none, some m => playerFromFields rest status message (some m)
      | _, _ => none
    else playerFromFields rest status message reason

/-- Content deserializer for the Regular struct variant. -/
def regularFromJson : Json → Option ApiError
  | .obj entries => regularFromFields entries none none
  | _ => none

/-- Content deserializer for the Player struct variant. -/
def playerFromJson : Json → Option ApiError
  | .obj entries => playerFromFields entries none none none
  | _ => none

/-- Deserialization of ApiError as derived by serde (client.rs lines
85-100): an externally tagged enum is a JSON object with exactly one
entry whose key names the variant.  The alias error is declared on both
variants; serde resolves the duplicate alias to the first variant, so a
body wrapped under the error key always deserializes through the Regular
shape, with unknown fields such as reason ignored.  A bare body, whose
first key is a field name rather than a variant tag, does not
deserialize at all. -/
def apiErrorFromJson : Json → Option ApiError
  | .obj [(k, v)] =>
    if k = "Regular".data ∨ k = "error".data then regularFromJson v
    else if k = "Player".data then playerFromJson v
    else none
  | _ => none

/-- The client error taxonomy (client.rs lines 40-54); the payloads of
the ParseJSON and Request variants play no role in classification and
are omitted. -/
inductive ClientError
  | Unauthorized
  | RateLimited (retryAfter : Option Nat)
  | Api (e : ApiError)
  | ParseJSON
  | Request
  | StatusCode (code : Nat)
  deriving DecidableEq

/-- Rust str::parse for usize: an optional leading plus sign followed by
one or more ASCII digits, rejected past usize::MAX (64-bit here). -/
def parseUsize (s : Str) : Option Nat :=
  let digits := if s.head? = some '+' then s.tail else s
  if digits ≠ [] ∧ digits.all Char.isDigit then
    if digits.foldl (fun a c => a * 10 + (c.toNat - 48)) 0 < 2 ^ 64 then
      some (digits.foldl (fun a c => a * 10 + (c.toNat - 48)) 0)
    else none
  else none

/-- Observable part of a failed reqwest::Response as the classifier
consumes it: the status code, the headers (names lowercase, as reqwest
normalizes them), and the body parsed as JSON when it is valid JSON
(none models a body that is not valid JSON). -/
structure Response where
  status : Nat
  headers : List (Str × Str)
  body : Option Json

/-- Header lookup on a response (reqwest HeaderMap get). -/
def headerValue (r : Response) (name : Str) : Option Str :=
  (r.headers.find? fun kv => kv.1 == name).map fun kv => kv.2

/-- ClientError::from_response (client.rs lines 57-74): 401 maps to
Unauthorized; 429 maps to RateLimited carrying the parsed Retry-After
header when present and parseable; 403 and 404 attempt to deserialize
the body as an ApiError, wrapping success as Api and falling back to
StatusCode; every other status maps to StatusCode. -/
def from_response (r : Response) : ClientError :=
  if r.status = 401 then .Unauthorized
  else if r.status = 429 then
    .RateLimited ((headerValue r "retry-after".data).bind parseUsize)
  else if r.status = 403 ∨ r.status = 404 then
    match r.body.bind apiErrorFromJson with
    | some e => .Api e
    | none => .StatusCode r.status
  else .StatusCode r.status

-- Sanity checks for the classifier model.
example : from_response ⟨401, [], none⟩ = .Unauthorized := by decide
example : from_response ⟨500, [], none⟩ = .StatusCode 500 := by decide
example :
    apiErrorFromJson (.obj [("error".data,
      .obj [("status".data, .num 404), ("message".data, .str "not found".data)])])
    = some (.Regular 404 "not found".data) := by decide

theorem splitOnChar_ne_nil (c : Char) (l : Str) : splitOnChar c l ≠ [] := by
  cases l with
  | nil => simp [splitOnChar]
  | cons x xs =>
    simp only [splitOnChar]
    cases h : splitOnChar c xs with
    | nil => simp
    | cons f rest =>
      by_cases hx : x = c <;> simp [hx]

theorem splitOnChar_not_mem {c : Char} {l : Str} (h : c ∉ l) :
    splitOnChar c l = [l] := by
  induction l with
  | nil => rfl
  | cons x xs ih =>
    have hx : x ≠ c := fun he => h (he ▸ List.mem_cons_self x xs)
    have hxs : c ∉ xs := fun hm => h (List.mem_cons_of_mem x hm)
    simp only [splitOnChar, ih hxs]
    simp [hx]

theorem splitOnChar_append {c : Char} {a : Str} (b : Str) (h : c ∉ a) :
    splitOnChar c (a ++ c :: b) = a :: splitOnChar c b := by
  induction a with
  | nil =>
    simp only [List.nil_append, splitOnChar]
    cases hb : splitOnChar c b with
    | nil => exact absurd hb (splitOnChar_ne_nil c b)
    | cons f rest => simp
  | cons x a' ih =>
    have hx : x ≠ c := fun he => h (he ▸ List.mem_cons_self x a')
    have ha' : c ∉ a' := fun hm => h (List.mem_cons_of_mem x hm)
    simp only [List.cons_append, splitOnChar, List.append_eq]
    rw [ih ha']
    simp [hx]

theorem as_str_no_colon (t : Ty) : ':' ∉ t.as_str := by
  cases t <;> decide

/-- C8: a string containing neither a colon nor a slash is a fixed point
of get_id, for every resource type. -/
theorem c8_bare_id_fixed_point (t : Ty) (s : Str)
    (h1 : ':' ∉ s) (h2 : '/' ∉ s) : get_id t s = s := by
  simp [get_id, idFromSplit, splitOnChar_not_mem h1, splitOnChar_not_mem h2]

/-- C8 witness: a concrete bare identifier is returned unchanged. -/
theorem c8_bare_id_fixed_point_witness :
    get_id Ty.track "1301WleyT98MSxVHPZCA6M".data
      = "1301WleyT98MSxVHPZCA6M".data :=
  c8_bare_id_fixed_point Ty.track _ (by decide) (by decide)

/-- C2 counterexample: for the artist type and the mismatched input
spotify album 2WX2uTcsvV5OnS0inACecP, get_id returns the input unchanged
with its colons, and stripping the uri built from it does not give the
same result as stripping the input. -/
theorem c2_mismatch_breaks_idempotence :
    get_id Ty.artist
        (get_uri Ty.artist "spotify:album:2WX2uTcsvV5OnS0inACecP".data)
      ≠ get_id Ty.artist "spotify:album:2WX2uTcsvV5OnS0inACecP".data := by
  decide

/-- C2 amended: whenever the stripped result get_id t s is colon-free
(every bare id and every input whose type segment matches strips to a
colon-free identifier), stripping after wrapping in get_uri returns the
same result as stripping the original. -/
theorem c2_strip_wrap_strip (t : Ty) (s : Str) (h : ':' ∉ get_id t s) :
    get_id t (get_uri t s) = get_id t s := by
  have h1 : get_uri t s
      = "spotify".data ++ ':' :: (t.as_str ++ ':' :: get_id t s) := by
    show "spotify:".data ++ t.as_str ++ ':' :: get_id t s = _
    have h0 : "spotify:".data = "spotify".data ++ [':'] := rfl
    rw [h0]
    simp [List.append_assoc]
  have hsplit : splitOnChar ':' (get_uri t s)
      = ["spotify".data, t.as_str, get_id t s] := by
    rw [h1, splitOnChar_append _ (by decide),
      splitOnChar_append _ (as_str_no_colon t), splitOnChar_not_mem h]
  simp [get_id, idFromSplit, hsplit]

/-- C2 witness: a matching track uri strips to a colon-free identifier,
and wrapping then stripping it gives the same result as stripping it. -/
theorem c2_strip_wrap_strip_witness :
    get_id Ty.track (get_uri Ty.track "spotify:track:4iV5W9uYEdYUVa79Axb7Rh".data)
      = get_id Ty.track "spotify:track:4iV5W9uYEdYUVa79Axb7Rh".data :=
  c2_strip_wrap_strip Ty.track _ (by decide)

/-- C4 counterexample: with at least three colon segments and a
mismatched second-to-last colon segment, get_id does not always return
the input unchanged: the slash attempt can still succeed and return a
fragment. -/
theorem c4_slash_rescue_returns_fragment :
    get_id Ty.artist "x:y:z/artist/ID".data = "ID".data
    ∧ get_id Ty.artist "x:y:z/artist/ID".data ≠ "x:y:z/artist/ID".data := by
  constructor
  · decide
  · decide

/-- C4 amended: when the colon split has at least three segments with a
mismatched second-to-last segment, and the subsequent slash attempt also
fails (fewer than three slash segments, or a slash mismatch), get_id
returns the whole original input, never a fragment, and the mismatch is
not an error: a value is always returned. -/
theorem c4_mismatch_falls_back (t : Ty) (raw : Str)
    (h1 : 3 ≤ (splitOnChar ':' raw).length)
    (h2 : (splitOnChar ':' raw)[(splitOnChar ':' raw).length - 2]?
      ≠ some t.as_str)
    (h3 : idFromSplit t.as_str '/' raw = none) :
    get_id t raw = raw := by
  have hc : idFromSplit t.as_str ':' raw = none := by
    simp [idFromSplit, h2]
  simp [get_id, hc, h3]

/-- C4 witness: the spec's own mismatch example, a spotify album uri
stripped as an artist, is returned unchanged. -/
theorem c4_mismatch_falls_back_witness :
    get_id Ty.artist "spotify:album:2WX2uTcsvV5OnS0inACecP".data
      = "spotify:album:2WX2uTcsvV5OnS0inACecP".data :=
  c4_mismatch_falls_back Ty.artist _ (by decide) (by decide) (by decide)

/-- A client with only a static access token configured, as built by the
source's own tests. -/
def tokenClient : Spotify :=
  { prefixUrl := "https://api.spotify.com/v1/".data
    access_token := some "token".data
    client_credentials_manager := none }

/-- A client whose configured base url was overridden away from the
default. -/
def overriddenClient : Spotify :=
  { prefixUrl := "http://localhost:8080/".data
    access_token := some "token".data
    client_credentials_manager := none }

/-- C1 fails on the code: a client whose configured base url is the
overridden http://localhost:8080/, dispatching the relative path
tracks/123, produces a request against the hardcoded default
https://api.spotify.com/v1/tracks/123 rather than against the configured
value: internal_call never reads the prefix field. -/
theorem c1_configured_base_url_ignored :
    (internal_call_request overriddenClient .GET "tracks/123".data .null).map
        (fun req => req.url)
      = some "https://api.spotify.com/v1/tracks/123".data
    ∧ (internal_call_request overriddenClient .GET "tracks/123".data .null).map
        (fun req => req.url)
      ≠ some (overriddenClient.prefixUrl ++ "tracks/123".data) := by
  constructor
  · decide
  · decide

/-- C5: payload placement by method for every dispatched request: GET
puts the payload in the query and attaches no JSON body, POST PUT and
DELETE put it in the JSON body and never in the query, and any other
method attaches no payload at all. -/
theorem c5_payload_placement (s : Spotify) (m : Method) (u : Str) (p : Json)
    (req : HttpRequest) (h : internal_call_request s m u p = some req) :
    (m = .GET → req.query = some p ∧ req.body = none)
    ∧ ((m = .POST ∨ m = .PUT ∨ m = .DELETE) →
        req.body = some p ∧ req.query = none)
    ∧ (m ≠ .GET → m ≠ .POST → m ≠ .PUT → m ≠ .DELETE →
        req.query = none ∧ req.body = none) := by
  cases ha : auth_headers s with
  | none => rw [internal_call_request, ha] at h; simp at h
  | some a =>
    rw [internal_call_request, ha] at h
    simp only [Option.map_some', Option.some.injEq] at h
    subst h
    cases m <;> simp

/-- C5 witness request: the request a GET dispatch of tracks with a null
payload builds from tokenClient. -/
def c5GetRequest : HttpRequest :=
  { method := .GET
    url := "https://api.spotify.com/v1/tracks".data
    headers := [("Authorization".data, "Bearer token".data),
                ("Content-Type".data, "application/json".data)]
    query := some .null
    body := none }

/-- C5 witness: at a concrete GET dispatch, the payload lands in the
query and no JSON body is attached. -/
theorem c5_payload_placement_witness :
    c5GetRequest.query = some Json.null ∧ c5GetRequest.body = none :=
  (c5_payload_placement tokenClient .GET "tracks".data .null c5GetRequest
    rfl).1 rfl

/-- C9: build returns the configuration unchanged whenever at least one
of the static token and the credentials manager is configured, and takes
the fatal branch (the panic, modelled as none) exactly when both are
absent; under the same precondition the fatal branch of auth_headers is
unreachable as well. -/
theorem c9_build_requires_token_source (s : Spotify) :
    (¬ (s.access_token = none ∧ s.client_credentials_manager = none) →
      build s = some s ∧ auth_headers s ≠ none)
    ∧ ((s.access_token = none ∧ s.client_credentials_manager = none) →
      build s = none ∧ auth_headers s = none) := by
  obtain ⟨pUrl, tok, ccm⟩ := s
  cases tok <;> cases ccm <;> simp [build, auth_headers]

/-- C9 witness: a client with a static token builds to itself and
resolves an authorization value. -/
theorem c9_build_requires_token_source_witness :
    build tokenClient = some tokenClient ∧ auth_headers tokenClient ≠ none :=
  (c9_build_requires_token_source tokenClient).1 (by decide)

/-- C10: when a static access token is configured, token resolution uses
it: the Authorization header is exactly Bearer followed by the static
token, whatever the credentials manager holds, and the resolution result
never depends on the manager, so its token acquisition is never
consulted. -/
theorem c10_static_token_selected (p t : Str)
    (ccm : Option SpotifyClientCredentials) (m : Method) (u : Str) (pl : Json) :
    auth_headers ⟨p, some t, ccm⟩ = some ("Bearer ".data ++ t)
    ∧ (internal_call_request ⟨p, some t, ccm⟩ m u pl).map (fun req => req.headers)
      = some [("Authorization".data, "Bearer ".data ++ t),
              ("Content-Type".data, "application/json".data)]
    ∧ (∀ ccm2, auth_headers ⟨p, some t, ccm⟩ = auth_headers ⟨p, some t, ccm2⟩) := by
  refine ⟨rfl, ?_, fun ccm2 => rfl⟩
  cases m <;> rfl

/-- C6: every response with status 429 classifies to RateLimited carrying
the Retry-After header value parsed as integer seconds when present and
parseable, and no value otherwise; concretely, Retry-After 30 gives
RateLimited 30 and a missing header gives RateLimited with no value. -/
theorem c6_rate_limited_retry_after (hs : List (Str × Str)) (b : Option Json) :
    from_response ⟨429, hs, b⟩
      = .RateLimited ((headerValue ⟨429, hs, b⟩ "retry-after".data).bind parseUsize)
    ∧ from_response ⟨429, [("retry-after".data, "30".data)], none⟩
      = .RateLimited (some 30)
    ∧ from_response ⟨429, [], none⟩ = .RateLimited none := by
  refine ⟨rfl, by decide, by decide⟩

/-- The error-wrapped regular not-found body. -/
def wrappedRegularBody : Json :=
  .obj [("error".data,
    .obj [("status".data, .num 404), ("message".data, .str "not found".data)])]

/-- C7: a 403 or 404 response has its body parsed as an ApiError, a
successful parse wrapping as Api and a failed parse falling back to
StatusCode of the same status; concretely the error-wrapped not-found
body classifies to Api Regular 404 not found, and an unparseable body to
StatusCode 404. -/
theorem c7_forbidden_not_found_classification
    (hs : List (Str × Str)) (b : Option Json) :
    (from_response ⟨403, hs, b⟩
      = match b.bind apiErrorFromJson with
        | some e => .Api e
        | none => .StatusCode 403)
    ∧ (from_response ⟨404, hs, b⟩
      = match b.bind apiErrorFromJson with
        | some e => .Api e
        | none => .StatusCode 404)
    ∧ from_response ⟨404, [], some wrappedRegularBody⟩
      = .Api (.Regular 404 "not found".data)
    ∧ from_response ⟨404, [], none⟩ = .StatusCode 404 := by
  refine ⟨rfl, rfl, by decide, by decide⟩

/-- The bare regular not-found body. -/
def bareRegularBody : Json :=
  .obj [("status".data, .num 404), ("message".data, .str "not found".data)]

/-- The bare player-shape forbidden body. -/
def barePlayerBody : Json :=
  .obj [("status".data, .num 403), ("message".data, .str "forbidden".data),
        ("reason".data, .str "PREMIUM_REQUIRED".data)]

/-- The error-wrapped player-shape forbidden body. -/
def wrappedPlayerBody : Json :=
  .obj [("error".data,
    .obj [("status".data, .num 403), ("message".data, .str "forbidden".data),
          ("reason".data, .str "PREMIUM_REQUIRED".data)])]

/-- C3 counterexample: a 404 response whose body is the bare regular
shape, and a 403 response whose body is the bare three-field shape, both
fall back to StatusCode instead of classifying to Api: the derived
deserializer only accepts variant-tagged single-entry objects. -/
theorem c3_bare_bodies_fall_back :
    from_response ⟨404, [], some bareRegularBody⟩ = .StatusCode 404
    ∧ from_response ⟨403, [], some barePlayerBody⟩ = .StatusCode 403 := by
  constructor
  · decide
  · decide

/-- C3 amended: a 403 or 404 response whose body nests either error-body
shape under the error key classifies to Api (serde resolves the
duplicated error alias to the Regular variant, ignoring the unknown
reason field), while the bare form of either shape does not parse and
falls back to StatusCode. -/
theorem c3_wrapped_bodies_classify :
    from_response ⟨404, [], some wrappedRegularBody⟩
      = .Api (.Regular 404 "not found".data)
    ∧ from_response ⟨403, [], some wrappedPlayerBody⟩
      = .Api (.Regular 403 "forbidden".data)
    ∧ from_response ⟨404, [], some bareRegularBody⟩ = .StatusCode 404
    ∧ from_response ⟨403, [], some barePlayerBody⟩ = .StatusCode 403 := by
  refine ⟨by decide, by decide, by decide, by decide⟩

end RSpotify
